import Mathlib

/-!
Verification development for the oliveit-stack delivery backend.

The definitions below are a shallow embedding of the JavaScript source:
the order lifecycle controllers (vendorController.js, deliveryController.js,
customerController), the Mongoose order model with its pre-save hook
(src/models/Order.js), the haversine helper (src/utils/locationUtils.js),
the delivery-fee computations, the dispatch queries (getNearbyOrders,
getNearbyStores), the socket wiring (index.js) and the courier
location-report endpoint (updateLocation).  Theorems settle the
specification claims about these operations.
-/

/-- Order status enum, ORDER_STATUS in src/models/Order.js. -/
inductive Status where
  | pending
  | accepted
  | rejected
  | preparing
  | readyForPickup
  | pickedUp
  | inTransit
  | delivered
  | cancelled
  | confirmed
  | deliveryFailed
deriving DecidableEq, Repr

/-- Lower-case wire name of a status, as interpolated into error messages. -/
def statusName : Status → String
  | .pending => "pending"
  | .accepted => "accepted"
  | .rejected => "rejected"
  | .preparing => "preparing"
  | .readyForPickup => "ready_for_pickup"
  | .pickedUp => "picked_up"
  | .inTransit => "in_transit"
  | .delivered => "delivered"
  | .cancelled => "cancelled"
  | .confirmed => "confirmed"
  | .deliveryFailed => "delivery_failed"

/-- An API error response: sendError(res, code, msg) in responseUtils. -/
structure ApiErr where
  code : Nat
  msg : String
deriving DecidableEq, Repr

/-- One entry of the statusHistory array (timestamps are not modeled). -/
structure StatusEntry where
  status : Status
  updatedBy : Nat
  notes : Option String
deriving DecidableEq, Repr

/-- One entry of the deliveryIssues array on an order. -/
structure Issue where
  issueType : String
  description : String
  reportedBy : Nat
deriving DecidableEq, Repr

/-- The Order aggregate (the fields the verified operations touch). -/
structure Order where
  id : Nat
  customer : Nat
  vendor : Nat
  deliveryAgent : Option Nat
  status : Status
  statusHistory : List StatusEntry
  deliveryIssues : List Issue
  estimatedMins : Option Nat
  cancellationReason : Option String
  rejectionReason : Option String
deriving DecidableEq, Repr

/-- Mongoose pre-save hook on orderSchema (src/models/Order.js): when the
status path was modified since load, push one more history entry; its
updatedBy falls back to the customer id.  Mongoose marks a primitive path
modified only when the assigned value differs from the stored one. -/
def saveHook (oldStatus : Status) (o : Order) : Order :=
  if o.status = oldStatus then o
  else { o with statusHistory := o.statusHistory ++ [⟨o.status, o.customer, none⟩] }

/-- Vendor accepts an order: acceptOrder in vendorController.js.  The lookup
is findOne on the order id and the vendor id; only PENDING orders can be
accepted; on success the status becomes ACCEPTED, an estimated delivery time
of preparationTime + 30 minutes is recorded, a history entry is pushed and
the document is saved (running the pre-save hook). -/
def vendorAcceptOrder (vendorId orderId prepTime : Nat) (o : Order) : Except ApiErr Order :=
  if ¬ (o.id = orderId ∧ o.vendor = vendorId) then
    .error ⟨404, "Order not found"⟩
  else if o.status ≠ Status.pending then
    .error ⟨400, "Cannot accept order in " ++ statusName o.status ++ " status"⟩
  else
    .ok (saveHook o.status { o with
      status := Status.accepted,
      estimatedMins := some (prepTime + 30),
      statusHistory := o.statusHistory ++
        [⟨Status.accepted, vendorId, some "Accepted by vendor"⟩] })

/-- Vendor rejects an order: rejectOrder in vendorController.js.  A missing
reason is rejected up front; only PENDING orders can be rejected. -/
def vendorRejectOrder (vendorId orderId : Nat) (reason : Option String) (o : Order) :
    Except ApiErr Order :=
  match reason with
  | none => .error ⟨400, "Rejection reason is required"⟩
  | some r =>
    if ¬ (o.id = orderId ∧ o.vendor = vendorId) then
      .error ⟨404, "Order not found"⟩
    else if o.status ≠ Status.pending then
      .error ⟨400, "Cannot reject order in " ++ statusName o.status ++ " status"⟩
    else
      .ok (saveHook o.status { o with
        status := Status.rejected,
        rejectionReason := some r,
        statusHistory := o.statusHistory ++
          [⟨Status.rejected, vendorId, some ("Rejected by vendor. Reason: " ++ r)⟩] })

/-- Vendor marks an order ready: orderReadyForPickup in vendorController.js.
Allowed from ACCEPTED or PREPARING. -/
def orderReadyForPickup (vendorId orderId : Nat) (o : Order) : Except ApiErr Order :=
  if ¬ (o.id = orderId ∧ o.vendor = vendorId) then
    .error ⟨404, "Order not found"⟩
  else if o.status ≠ Status.accepted ∧ o.status ≠ Status.preparing then
    .error ⟨400, "Cannot mark order as ready in " ++ statusName o.status ++ " status"⟩
  else
    .ok (saveHook o.status { o with
      status := Status.readyForPickup,
      statusHistory := o.statusHistory ++
        [⟨Status.readyForPickup, vendorId, some "Order is ready for pickup"⟩] })

/-- Customer cancels an order: cancelOrder in the customer controller.  The
lookup is findOne on the order id and the customer id; only PENDING or
ACCEPTED orders are cancelable. -/
def cancelOrder (customerId orderId : Nat) (reason : Option String) (o : Order) :
    Except ApiErr Order :=
  if ¬ (o.id = orderId ∧ o.customer = customerId) then
    .error ⟨404, "Order not found"⟩
  else if ¬ (o.status = Status.pending ∨ o.status = Status.accepted) then
    .error ⟨400, "Cannot cancel order in " ++ statusName o.status ++ " status"⟩
  else
    let note := reason.getD "Cancelled by customer"
    .ok (saveHook o.status { o with
      status := Status.cancelled,
      cancellationReason := some note,
      statusHistory := o.statusHistory ++ [⟨Status.cancelled, customerId, some note⟩] })

/-- Courier claims an order for delivery: acceptOrder in
deliveryController.js.  The findOne filter requires the order id, status
READY_FOR_PICKUP and a null deliveryAgent; a failed lookup (unknown id,
wrong status, or an already assigned courier) yields the single 404
response.  On success the courier is stored and a history entry with the
unchanged current status is pushed; the pre-save hook adds nothing because
the status path is untouched. -/
def deliveryAcceptOrder (agentId orderId : Nat) (o : Order) : Except ApiErr Order :=
  if ¬ (o.id = orderId ∧ o.status = Status.readyForPickup ∧ o.deliveryAgent = none) then
    .error ⟨404, "Order not found or already assigned"⟩
  else
    .ok (saveHook o.status { o with
      deliveryAgent := some agentId,
      statusHistory := o.statusHistory ++
        [⟨o.status, agentId, some "Delivery agent assigned"⟩] })

/-- Courier marks the order picked up: pickupOrder in deliveryController.js.
Requires the courier to be the assigned agent and status READY_FOR_PICKUP. -/
def pickupOrder (agentId orderId : Nat) (o : Order) : Except ApiErr Order :=
  if ¬ (o.id = orderId ∧ o.deliveryAgent = some agentId ∧ o.status = Status.readyForPickup) then
    .error ⟨404, "Order not found or not in ready for pickup status"⟩
  else
    .ok (saveHook o.status { o with
      status := Status.pickedUp,
      statusHistory := o.statusHistory ++
        [⟨Status.pickedUp, agentId, some "Order picked up by delivery agent"⟩] })

/-- Courier starts the delivery: startDelivery in deliveryController.js.
Requires the assigned agent and status PICKED_UP. -/
def startDelivery (agentId orderId : Nat) (o : Order) : Except ApiErr Order :=
  if ¬ (o.id = orderId ∧ o.deliveryAgent = some agentId ∧ o.status = Status.pickedUp) then
    .error ⟨404, "Order not found or not in picked up status"⟩
  else
    .ok (saveHook o.status { o with
      status := Status.inTransit,
      statusHistory := o.statusHistory ++
        [⟨Status.inTransit, agentId, some "Delivery started"⟩] })

/-- Courier completes the delivery: completeDelivery in
deliveryController.js.  Requires the assigned agent and status PICKED_UP or
IN_TRANSIT. -/
def completeDelivery (agentId orderId : Nat) (o : Order) : Except ApiErr Order :=
  if ¬ (o.id = orderId ∧ o.deliveryAgent = some agentId ∧
        (o.status = Status.pickedUp ∨ o.status = Status.inTransit)) then
    .error ⟨404, "Order not found or not in valid status for delivery"⟩
  else
    .ok (saveHook o.status { o with
      status := Status.delivered,
      statusHistory := o.statusHistory ++
        [⟨Status.delivered, agentId, some "Order delivered successfully"⟩] })

/-- Courier reports a delivery issue: reportDeliveryIssue in
deliveryController.js.  The status is not changed; the issue is appended and
a history entry carrying the current status is pushed. -/
def reportDeliveryIssue (agentId orderId : Nat) (issueType description : String) (o : Order) :
    Except ApiErr Order :=
  if issueType = "" ∨ description = "" then
    .error ⟨400, "Issue type and description are required"⟩
  else if ¬ (o.id = orderId ∧ o.deliveryAgent = some agentId) then
    .error ⟨404, "Order not found or not assigned to this delivery agent"⟩
  else
    .ok (saveHook o.status { o with
      deliveryIssues := o.deliveryIssues ++ [⟨issueType, description, agentId⟩],
      statusHistory := o.statusHistory ++
        [⟨o.status, agentId,
          some ("Delivery issue reported: " ++ issueType ++ " - " ++ description)⟩] })

/-- Courier updates the estimated time of arrival: updateETA in
deliveryController.js.  A non-numeric body is rejected; the status is not
changed; a history entry carrying the current status is pushed. -/
def updateETA (agentId orderId : Nat) (estimatedMinutes : Option Nat) (o : Order) :
    Except ApiErr Order :=
  match estimatedMinutes with
  | none => .error ⟨400, "Valid estimated minutes are required"⟩
  | some m =>
    if ¬ (o.id = orderId ∧ o.deliveryAgent = some agentId ∧
          (o.status = Status.pickedUp ∨ o.status = Status.inTransit)) then
      .error ⟨404, "Order not found or not in active delivery status"⟩
    else
      .ok (saveHook o.status { o with
        estimatedMins := some m,
        statusHistory := o.statusHistory ++ [⟨o.status, agentId, some "Updated ETA"⟩] })

/-- The operations that read-modify-write an existing order document. -/
inductive OrderOp where
  | vendorAccept (vendorId orderId prepTime : Nat)
  | vendorReject (vendorId orderId : Nat) (reason : Option String)
  | vendorReady (vendorId orderId : Nat)
  | customerCancel (customerId orderId : Nat) (reason : Option String)
  | courierAccept (agentId orderId : Nat)
  | pickup (agentId orderId : Nat)
  | startTransit (agentId orderId : Nat)
  | complete (agentId orderId : Nat)
  | reportIssue (agentId orderId : Nat) (issueType description : String)
  | setETA (agentId orderId : Nat) (estimatedMinutes : Option Nat)
deriving DecidableEq, Repr

/-- Dispatch of an operation to the controller it names. -/
def applyOp : OrderOp → Order → Except ApiErr Order
  | .vendorAccept v oid p => vendorAcceptOrder v oid p
  | .vendorReject v oid r => vendorRejectOrder v oid r
  | .vendorReady v oid => orderReadyForPickup v oid
  | .customerCancel c oid r => cancelOrder c oid r
  | .courierAccept a oid => deliveryAcceptOrder a oid
  | .pickup a oid => pickupOrder a oid
  | .startTransit a oid => startDelivery a oid
  | .complete a oid => completeDelivery a oid
  | .reportIssue a oid t d => reportDeliveryIssue a oid t d
  | .setETA a oid m => updateETA a oid m

/-- True exactly for the operations that attempt a status transition.
Courier claiming, issue reports and ETA updates never change the status. -/
def isTransitionOp : OrderOp → Bool
  | .vendorAccept _ _ _ => true
  | .vendorReject _ _ _ => true
  | .vendorReady _ _ => true
  | .customerCancel _ _ _ => true
  | .pickup _ _ => true
  | .startTransit _ _ => true
  | .complete _ _ => true
  | _ => false

/-- Boolean success test on a controller result. -/
def okB {α : Type} : Except ApiErr α → Bool
  | .ok _ => true
  | .error _ => false

/-- Effect of an operation on the stored document: an error response leaves
the stored order untouched. -/
def runOp (o : Order) (k : OrderOp) : Order :=
  match applyOp k o with
  | .ok o2 => o2
  | .error _ => o

/-- Effect of a sequence of operations on the stored document. -/
def runOps (o : Order) (ks : List OrderOp) : Order :=
  ks.foldl runOp o

/-- The terminal statuses named by the spec. -/
def terminalStatuses : List Status :=
  [Status.rejected, Status.delivered, Status.cancelled, Status.deliveryFailed]

/-- Replaying a history list: the status of its last entry. -/
def replay (h : List StatusEntry) : Option Status :=
  h.getLast?.map StatusEntry.status

/-- A history is coherent when replaying it yields the current status. -/
def replayOk (o : Order) : Prop :=
  replay o.statusHistory = some o.status

/-- Order document built by createOrder in the customer controller: status
PENDING with a seeded one-entry history; saving the new document runs the
pre-save hook, which sees the explicitly set status path as modified and
pushes a second PENDING entry. -/
def createOrderDoc (orderId customerId vendorId : Nat) : Order :=
  { id := orderId, customer := customerId, vendor := vendorId,
    deliveryAgent := none, status := Status.pending,
    statusHistory := [⟨Status.pending, customerId, none⟩, ⟨Status.pending, customerId, none⟩],
    deliveryIssues := [], estimatedMins := none,
    cancellationReason := none, rejectionReason := none }

/-- A minimal order with customer 2, vendor 3 used for concrete instances. -/
def sampleOrder (s : Status) (agent : Option Nat) : Order :=
  { id := 1, customer := 2, vendor := 3, deliveryAgent := agent, status := s,
    statusHistory := [⟨s, 2, none⟩], deliveryIssues := [], estimatedMins := none,
    cancellationReason := none, rejectionReason := none }

/-- Status and deliveryAgent are untouched by the pre-save hook, and the
history either stays or gains exactly the hook entry. -/
lemma saveHook_spec (old : Status) (o : Order) :
    (saveHook old o).status = o.status ∧
    (saveHook old o).deliveryAgent = o.deliveryAgent ∧
    ((o.status = old ∧ (saveHook old o).statusHistory = o.statusHistory) ∨
     (o.status ≠ old ∧ (saveHook old o).statusHistory =
        o.statusHistory ++ [⟨o.status, o.customer, none⟩])) := by
  unfold saveHook
  split
  · next hc => exact ⟨rfl, rfl, Or.inl ⟨hc, rfl⟩⟩
  · next hc => exact ⟨rfl, rfl, Or.inr ⟨hc, rfl⟩⟩

/-- Every successful operation appends a nonempty block of history entries,
all carrying the resulting status. -/
lemma step_hist {k : OrderOp} {o o2 : Order} (h : applyOp k o = Except.ok o2) :
    ∃ δ, δ ≠ [] ∧ o2.statusHistory = o.statusHistory ++ δ ∧
      ∀ e ∈ δ, e.status = o2.status := by
  cases k with
  | vendorAccept v oid p =>
    replace h : vendorAcceptOrder v oid p o = Except.ok o2 := h
    unfold vendorAcceptOrder at h
    split at h
    · exact absurd h (by simp)
    · split at h
      · exact absurd h (by simp)
      · next h1 h2 =>
        injection h with h3
        subst h3
        have hs : o.status = Status.pending := not_not.mp h2
        refine ⟨[⟨Status.accepted, v, some "Accepted by vendor"⟩,
                 ⟨Status.accepted, o.customer, none⟩], by simp, ?_, ?_⟩ <;>
          simp [saveHook, hs]
  | vendorReject v oid r =>
    cases r with
    | none => exact absurd h (by simp [applyOp, vendorRejectOrder])
    | some rr =>
      replace h : vendorRejectOrder v oid (some rr) o = Except.ok o2 := h
      unfold vendorRejectOrder at h
      simp only [] at h
      split at h
      · exact absurd h (by simp)
      · split at h
        · exact absurd h (by simp)
        · next h1 h2 =>
          injection h with h3
          subst h3
          have hs : o.status = Status.pending := not_not.mp h2
          refine ⟨[⟨Status.rejected, v, some ("Rejected by vendor. Reason: " ++ rr)⟩,
                   ⟨Status.rejected, o.customer, none⟩], by simp, ?_, ?_⟩ <;>
            simp [saveHook, hs]
  | vendorReady v oid =>
    replace h : orderReadyForPickup v oid o = Except.ok o2 := h
    unfold orderReadyForPickup at h
    split at h
    · exact absurd h (by simp)
    · split at h
      · exact absurd h (by simp)
      · next h1 h2 =>
        injection h with h3
        subst h3
        have hs : o.status = Status.accepted ∨ o.status = Status.preparing := by
          rcases not_and_or.mp h2 with hl | hl
          · exact Or.inl (not_not.mp hl)
          · exact Or.inr (not_not.mp hl)
        refine ⟨[⟨Status.readyForPickup, v, some "Order is ready for pickup"⟩,
                 ⟨Status.readyForPickup, o.customer, none⟩], by simp, ?_, ?_⟩ <;>
          rcases hs with hs | hs <;> simp [saveHook, hs]
  | customerCancel c oid r =>
    replace h : cancelOrder c oid r o = Except.ok o2 := h
    unfold cancelOrder at h
    split at h
    · exact absurd h (by simp)
    · split at h
      · exact absurd h (by simp)
      · next h1 h2 =>
        injection h with h3
        subst h3
        have hs : o.status = Status.pending ∨ o.status = Status.accepted := not_not.mp h2
        refine ⟨[⟨Status.cancelled, c, some (r.getD "Cancelled by customer")⟩,
                 ⟨Status.cancelled, o.customer, none⟩], by simp, ?_, ?_⟩ <;>
          rcases hs with hs | hs <;> simp [saveHook, hs]
  | courierAccept a oid =>
    replace h : deliveryAcceptOrder a oid o = Except.ok o2 := h
    unfold deliveryAcceptOrder at h
    split at h
    · exact absurd h (by simp)
    · next h1 =>
      injection h with h3
      subst h3
      refine ⟨[⟨o.status, a, some "Delivery agent assigned"⟩], by simp, ?_, ?_⟩ <;>
        simp [saveHook]
  | pickup a oid =>
    replace h : pickupOrder a oid o = Except.ok o2 := h
    unfold pickupOrder at h
    split at h
    · exact absurd h (by simp)
    · next h1 =>
      injection h with h3
      subst h3
      have hs : o.status = Status.readyForPickup := (not_not.mp h1).2.2
      refine ⟨[⟨Status.pickedUp, a, some "Order picked up by delivery agent"⟩,
               ⟨Status.pickedUp, o.customer, none⟩], by simp, ?_, ?_⟩ <;>
        simp [saveHook, hs]
  | startTransit a oid =>
    replace h : startDelivery a oid o = Except.ok o2 := h
    unfold startDelivery at h
    split at h
    · exact absurd h (by simp)
    · next h1 =>
      injection h with h3
      subst h3
      have hs : o.status = Status.pickedUp := (not_not.mp h1).2.2
      refine ⟨[⟨Status.inTransit, a, some "Delivery started"⟩,
               ⟨Status.inTransit, o.customer, none⟩], by simp, ?_, ?_⟩ <;>
        simp [saveHook, hs]
  | complete a oid =>
    replace h : completeDelivery a oid o = Except.ok o2 := h
    unfold completeDelivery at h
    split at h
    · exact absurd h (by simp)
    · next h1 =>
      injection h with h3
      subst h3
      have hs : o.status = Status.pickedUp ∨ o.status = Status.inTransit :=
        (not_not.mp h1).2.2
      refine ⟨[⟨Status.delivered, a, some "Order delivered successfully"⟩,
               ⟨Status.delivered, o.customer, none⟩], by simp, ?_, ?_⟩ <;>
        rcases hs with hs | hs <;> simp [saveHook, hs]
  | reportIssue a oid t d =>
    replace h : reportDeliveryIssue a oid t d o = Except.ok o2 := h
    unfold reportDeliveryIssue at h
    split at h
    · exact absurd h (by simp)
    · split at h
      · exact absurd h (by simp)
      · next h1 h2 =>
        injection h with h3
        subst h3
        refine ⟨[⟨o.status, a, some ("Delivery issue reported: " ++ t ++ " - " ++ d)⟩],
                by simp, ?_, ?_⟩ <;> simp [saveHook]
  | setETA a oid m =>
    cases m with
    | none => exact absurd h (by simp [applyOp, updateETA])
    | some mm =>
      replace h : updateETA a oid (some mm) o = Except.ok o2 := h
      unfold updateETA at h
      simp only [] at h
      split at h
      · exact absurd h (by simp)
      · next h1 =>
        injection h with h3
        subst h3
        refine ⟨[⟨o.status, a, some "Updated ETA"⟩], by simp, ?_, ?_⟩ <;>
          simp [saveHook]

/-- No successful operation removes or replaces an assigned courier: the
only write path for deliveryAgent (courier acceptOrder) requires a null
field, and every other operation leaves the field alone. -/
lemma step_agent {k : OrderOp} {o o2 : Order} {c : Nat}
    (h : applyOp k o = Except.ok o2) (hc : o.deliveryAgent = some c) :
    o2.deliveryAgent = some c := by
  cases k with
  | vendorAccept v oid p =>
    replace h : vendorAcceptOrder v oid p o = Except.ok o2 := h
    unfold vendorAcceptOrder at h
    split at h
    · exact absurd h (by simp)
    · split at h
      · exact absurd h (by simp)
      · injection h with h3
        subst h3
        simp [saveHook, hc]
        split <;> simp [hc]
  | vendorReject v oid r =>
    cases r with
    | none => exact absurd h (by simp [applyOp, vendorRejectOrder])
    | some rr =>
      replace h : vendorRejectOrder v oid (some rr) o = Except.ok o2 := h
      unfold vendorRejectOrder at h
      simp only [] at h
      split at h
      · exact absurd h (by simp)
      · split at h
        · exact absurd h (by simp)
        · injection h with h3
          subst h3
          unfold saveHook
          split <;> simp [hc]
  | vendorReady v oid =>
    replace h : orderReadyForPickup v oid o = Except.ok o2 := h
    unfold orderReadyForPickup at h
    split at h
    · exact absurd h (by simp)
    · split at h
      · exact absurd h (by simp)
      · injection h with h3
        subst h3
        unfold saveHook
        split <;> simp [hc]
  | customerCancel c2 oid r =>
    replace h : cancelOrder c2 oid r o = Except.ok o2 := h
    unfold cancelOrder at h
    split at h
    · exact absurd h (by simp)
    · split at h
      · exact absurd h (by simp)
      · injection h with h3
        subst h3
        unfold saveHook
        split <;> simp [hc]
  | courierAccept a oid =>
    replace h : deliveryAcceptOrder a oid o = Except.ok o2 := h
    unfold deliveryAcceptOrder at h
    split at h
    · exact absurd h (by simp)
    · next h1 =>
      exact absurd ((not_not.mp h1).2.2) (by simp [hc])
  | pickup a oid =>
    replace h : pickupOrder a oid o = Except.ok o2 := h
    unfold pickupOrder at h
    split at h
    · exact absurd h (by simp)
    · injection h with h3
      subst h3
      unfold saveHook
      split <;> simp [hc]
  | startTransit a oid =>
    replace h : startDelivery a oid o = Except.ok o2 := h
    unfold startDelivery at h
    split at h
    · exact absurd h (by simp)
    · injection h with h3
      subst h3
      unfold saveHook
      split <;> simp [hc]
  | complete a oid =>
    replace h : completeDelivery a oid o = Except.ok o2 := h
    unfold completeDelivery at h
    split at h
    · exact absurd h (by simp)
    · injection h with h3
      subst h3
      unfold saveHook
      split <;> simp [hc]
  | reportIssue a oid t d =>
    replace h : reportDeliveryIssue a oid t d o = Except.ok o2 := h
    unfold reportDeliveryIssue at h
    split at h
    · exact absurd h (by simp)
    · split at h
      · exact absurd h (by simp)
      · injection h with h3
        subst h3
        unfold saveHook
        split <;> simp [hc]
  | setETA a oid m =>
    cases m with
    | none => exact absurd h (by simp [applyOp, updateETA])
    | some mm =>
      replace h : updateETA a oid (some mm) o = Except.ok o2 := h
      unfold updateETA at h
      simp only [] at h
      split at h
      · exact absurd h (by simp)
      · injection h with h3
        subst h3
        unfold saveHook
        split <;> simp [hc]

/-- A successful status transition can only start from one of the six
statuses that some controller guard admits. -/
lemma transition_source {k : OrderOp} {o : Order}
    (ht : isTransitionOp k = true) (hok : okB (applyOp k o) = true) :
    o.status = Status.pending ∨ o.status = Status.accepted ∨
    o.status = Status.preparing ∨ o.status = Status.readyForPickup ∨
    o.status = Status.pickedUp ∨ o.status = Status.inTransit := by
  cases k with
  | vendorAccept v oid p =>
    replace hok : okB (vendorAcceptOrder v oid p o) = true := hok
    unfold vendorAcceptOrder at hok
    split at hok
    · exact absurd hok (by simp [okB])
    · split at hok
      · exact absurd hok (by simp [okB])
      · next h1 h2 => exact Or.inl (not_not.mp h2)
  | vendorReject v oid r =>
    cases r with
    | none => exact absurd hok (by simp [applyOp, vendorRejectOrder, okB])
    | some rr =>
      replace hok : okB (vendorRejectOrder v oid (some rr) o) = true := hok
      unfold vendorRejectOrder at hok
      simp only [] at hok
      split at hok
      · exact absurd hok (by simp [okB])
      · split at hok
        · exact absurd hok (by simp [okB])
        · next h1 h2 => exact Or.inl (not_not.mp h2)
  | vendorReady v oid =>
    replace hok : okB (orderReadyForPickup v oid o) = true := hok
    unfold orderReadyForPickup at hok
    split at hok
    · exact absurd hok (by simp [okB])
    · split at hok
      · exact absurd hok (by simp [okB])
      · next h1 h2 =>
        rcases not_and_or.mp h2 with hl | hl
        · exact Or.inr (Or.inl (not_not.mp hl))
        · exact Or.inr (Or.inr (Or.inl (not_not.mp hl)))
  | customerCancel c oid r =>
    replace hok : okB (cancelOrder c oid r o) = true := hok
    unfold cancelOrder at hok
    split at hok
    · exact absurd hok (by simp [okB])
    · split at hok
      · exact absurd hok (by simp [okB])
      · next h1 h2 =>
        rcases not_not.mp h2 with hs | hs
        · exact Or.inl hs
        · exact Or.inr (Or.inl hs)
  | courierAccept a oid => exact absurd ht (by simp [isTransitionOp])
  | pickup a oid =>
    replace hok : okB (pickupOrder a oid o) = true := hok
    unfold pickupOrder at hok
    split at hok
    · exact absurd hok (by simp [okB])
    · next h1 =>
      exact Or.inr (Or.inr (Or.inr (Or.inl (not_not.mp h1).2.2)))
  | startTransit a oid =>
    replace hok : okB (startDelivery a oid o) = true := hok
    unfold startDelivery at hok
    split at hok
    · exact absurd hok (by simp [okB])
    · next h1 =>
      exact Or.inr (Or.inr (Or.inr (Or.inr (Or.inl (not_not.mp h1).2.2))))
  | complete a oid =>
    replace hok : okB (completeDelivery a oid o) = true := hok
    unfold completeDelivery at hok
    split at hok
    · exact absurd hok (by simp [okB])
    · next h1 =>
      rcases (not_not.mp h1).2.2 with hs | hs
      · exact Or.inr (Or.inr (Or.inr (Or.inr (Or.inl hs))))
      · exact Or.inr (Or.inr (Or.inr (Or.inr (Or.inr hs))))
  | reportIssue a oid t d => exact absurd ht (by simp [isTransitionOp])
  | setETA a oid m => exact absurd ht (by simp [isTransitionOp])

/-- A rejected call leaves the stored document untouched. -/
lemma runOp_of_err {k : OrderOp} {o : Order}
    (h : okB (applyOp k o) = false) : runOp o k = o := by
  unfold runOp
  unfold okB at h
  split
  · next heq => rw [heq] at h; exact absurd h (by simp)
  · rfl

/-- One step of runOp keeps the old history as an unchanged initial segment
and never shortens it. -/
lemma runOp_keeps_hist (o : Order) (k : OrderOp) :
    (runOp o k).statusHistory.take o.statusHistory.length = o.statusHistory ∧
    o.statusHistory.length ≤ (runOp o k).statusHistory.length := by
  unfold runOp
  cases hh : applyOp k o with
  | error e => exact ⟨List.take_length _, le_refl _⟩
  | ok o2 =>
    obtain ⟨δ, hne, happ, hstat⟩ := step_hist hh
    refine ⟨?_, ?_⟩ <;> rw [happ]
    · exact List.take_left _ _
    · simp

/-- Any sequence of operations keeps the starting history as an unchanged
initial segment and never shortens it. -/
lemma runOps_keeps_hist (o : Order) (ks : List OrderOp) :
    (runOps o ks).statusHistory.take o.statusHistory.length = o.statusHistory ∧
    o.statusHistory.length ≤ (runOps o ks).statusHistory.length := by
  induction ks generalizing o with
  | nil => exact ⟨List.take_length _, le_refl _⟩
  | cons k ks ih =>
    have h1 := runOp_keeps_hist o k
    have h2 := ih (runOp o k)
    have hrun : runOps o (k :: ks) = runOps (runOp o k) ks := rfl
    rw [hrun]
    refine ⟨?_, le_trans h1.2 h2.2⟩
    calc (runOps (runOp o k) ks).statusHistory.take o.statusHistory.length
        = ((runOps (runOp o k) ks).statusHistory.take
            (runOp o k).statusHistory.length).take o.statusHistory.length := by
          rw [List.take_take, min_eq_left h1.2]
      _ = (runOp o k).statusHistory.take o.statusHistory.length := by rw [h2.1]
      _ = o.statusHistory := h1.1

/-- Every successful operation leaves the history replaying to the new
status; its last appended entry carries that status. -/
lemma replay_after_ok {k : OrderOp} {o o2 : Order}
    (h : applyOp k o = Except.ok o2) : replay o2.statusHistory = some o2.status := by
  obtain ⟨δ, hne, happ, hstat⟩ := step_hist h
  unfold replay
  rw [happ, List.getLast?_append_of_ne_nil _ hne,
      List.getLast?_eq_getLast_of_ne_nil hne]
  simp [hstat _ (List.getLast_mem hne)]

/-- Replay coherence is preserved by every operation, successful or not. -/
lemma replay_runOp {o : Order} (k : OrderOp) (h : replayOk o) :
    replayOk (runOp o k) := by
  unfold runOp
  cases hh : applyOp k o with
  | error e => exact h
  | ok o2 => exact replay_after_ok hh

/-- C3: every operation only appends history entries: the old history stays
as an unchanged initial segment, its length never decreases across any
sequence of operations, every appended entry carries the resulting status
(a status the order actually holds), and replaying the history yields the
final status, starting from any freshly created order. -/
theorem claim3_history_append_only :
    (∀ (k : OrderOp) (o o2 : Order), applyOp k o = Except.ok o2 →
        o2.statusHistory.take o.statusHistory.length = o.statusHistory ∧
        o.statusHistory.length ≤ o2.statusHistory.length ∧
        (∀ e ∈ o2.statusHistory.drop o.statusHistory.length, e.status = o2.status) ∧
        replay o2.statusHistory = some o2.status) ∧
    (∀ (o : Order) (ks : List OrderOp),
        (runOps o ks).statusHistory.take o.statusHistory.length = o.statusHistory ∧
        o.statusHistory.length ≤ (runOps o ks).statusHistory.length) ∧
    (∀ (o : Order) (ks : List OrderOp), replayOk o → replayOk (runOps o ks)) ∧
    (∀ oid c v : Nat, replayOk (createOrderDoc oid c v)) := by
  refine ⟨?_, runOps_keeps_hist, ?_, ?_⟩
  · intro k o o2 h
    obtain ⟨δ, hne, happ, hstat⟩ := step_hist h
    refine ⟨?_, ?_, ?_, replay_after_ok h⟩ <;> rw [happ]
    · exact List.take_left _ _
    · simp
    · rw [List.drop_left]
      exact hstat
  · intro o ks h
    induction ks generalizing o with
    | nil => exact h
    | cons k ks ih => exact ih (runOp o k) (replay_runOp k h)
  · intro oid c v
    rfl

/-- Witness for C3 at a concrete order and operation sequence. -/
theorem claim3_history_append_only_witness :
    replayOk (runOps (createOrderDoc 1 2 3) [OrderOp.vendorAccept 3 1 30]) ∧
    (createOrderDoc 1 2 3).statusHistory.length ≤
      (runOps (createOrderDoc 1 2 3) [OrderOp.vendorAccept 3 1 30]).statusHistory.length :=
  ⟨claim3_history_append_only.2.2.1 (createOrderDoc 1 2 3)
      [OrderOp.vendorAccept 3 1 30] rfl,
   (claim3_history_append_only.2.1 (createOrderDoc 1 2 3)
      [OrderOp.vendorAccept 3 1 30]).2⟩

/-- C1 (amended): once the courier field of an order is set, a further
courier acceptOrder call by any courier fails with the generic 404
response, the same response produced for an unknown order id, and no
operation ever changes or clears the recorded courier.  The deliveryAgent
field is a single optional id, so at most one courier is recorded at any
time. -/
theorem claim1_assignment_locked :
    ∀ (agentId orderId c : Nat) (o : Order), o.deliveryAgent = some c →
      deliveryAcceptOrder agentId orderId o =
        Except.error ⟨404, "Order not found or already assigned"⟩ ∧
      ∀ (k : OrderOp) (o2 : Order), applyOp k o = Except.ok o2 →
        o2.deliveryAgent = some c := by
  intro a oid c o hc
  refine ⟨?_, fun k o2 h => step_agent h hc⟩
  have hcond : ¬ (o.id = oid ∧ o.status = Status.readyForPickup ∧ o.deliveryAgent = none) := by
    rintro ⟨-, -, hnone⟩
    rw [hc] at hnone
    cases hnone
  unfold deliveryAcceptOrder
  rw [if_pos hcond]

/-- Witness for C1 at a concrete assigned order: the second accept call is
rejected and a further successful operation (an issue report by the
assigned courier) keeps the courier field. -/
theorem claim1_assignment_locked_witness :
    deliveryAcceptOrder 9 1 (sampleOrder Status.readyForPickup (some 7)) =
      Except.error ⟨404, "Order not found or already assigned"⟩ ∧
    (runOp (sampleOrder Status.readyForPickup (some 7))
        (OrderOp.reportIssue 7 1 "OTHER" "stuck")).deliveryAgent = some 7 :=
  ⟨(claim1_assignment_locked 9 1 7 (sampleOrder Status.readyForPickup (some 7)) rfl).1,
   (claim1_assignment_locked 9 1 7 (sampleOrder Status.readyForPickup (some 7)) rfl).2
     (OrderOp.reportIssue 7 1 "OTHER" "stuck")
     (runOp (sampleOrder Status.readyForPickup (some 7))
        (OrderOp.reportIssue 7 1 "OTHER" "stuck")) rfl⟩

/-- C1 counterexample: the failure returned for a claim on an
already-assigned order is byte-identical to the failure returned when the
order id is unknown, so the caller cannot distinguish a lost assignment
race from a not-found error, and no typed AlreadyAssigned error exists. -/
theorem claim1_counterexample :
    deliveryAcceptOrder 9 1 (sampleOrder Status.readyForPickup (some 7)) =
      Except.error ⟨404, "Order not found or already assigned"⟩ ∧
    deliveryAcceptOrder 9 5 (sampleOrder Status.readyForPickup none) =
      Except.error ⟨404, "Order not found or already assigned"⟩ := by
  exact ⟨rfl, rfl⟩

/-- C2 (amended): from every terminal status every transition attempt by
any actor is rejected (with a 400 or 404 response, not a typed
InvalidTransition) and leaves the stored order unchanged; the same holds
for CONFIRMED, a status in the code enum that the spec state machine
omits and that no operation enters or leaves; each of the six remaining
non-terminal statuses has at least one accepted outgoing transition. -/
theorem claim2_terminal_closed :
    (∀ (k : OrderOp) (o : Order), isTransitionOp k = true →
        o.status ∈ terminalStatuses →
        okB (applyOp k o) = false ∧ runOp o k = o) ∧
    (∀ (k : OrderOp) (o : Order), isTransitionOp k = true →
        o.status = Status.confirmed → okB (applyOp k o) = false) ∧
    okB (applyOp (OrderOp.vendorAccept 3 1 30) (sampleOrder Status.pending none)) = true ∧
    okB (applyOp (OrderOp.vendorReady 3 1) (sampleOrder Status.accepted none)) = true ∧
    okB (applyOp (OrderOp.vendorReady 3 1) (sampleOrder Status.preparing none)) = true ∧
    okB (applyOp (OrderOp.pickup 4 1) (sampleOrder Status.readyForPickup (some 4))) = true ∧
    okB (applyOp (OrderOp.startTransit 4 1) (sampleOrder Status.pickedUp (some 4))) = true ∧
    okB (applyOp (OrderOp.complete 4 1) (sampleOrder Status.inTransit (some 4))) = true := by
  refine ⟨?_, ?_, rfl, rfl, rfl, rfl, rfl, rfl⟩
  · intro k o ht hmem
    cases hq : okB (applyOp k o) with
    | false => exact ⟨rfl, runOp_of_err hq⟩
    | true =>
      exfalso
      have hsrc := transition_source ht hq
      simp only [terminalStatuses, List.mem_cons, List.not_mem_nil, or_false] at hmem
      rcases hmem with h | h | h | h <;>
        rcases hsrc with h2 | h2 | h2 | h2 | h2 | h2 <;> rw [h] at h2 <;> cases h2
  · intro k o ht hconf
    cases hq : okB (applyOp k o) with
    | false => rfl
    | true =>
      exfalso
      have hsrc := transition_source ht hq
      rcases hsrc with h2 | h2 | h2 | h2 | h2 | h2 <;> rw [hconf] at h2 <;> cases h2

/-- Witness for C2 at a concrete terminal order. -/
theorem claim2_terminal_closed_witness :
    okB (applyOp (OrderOp.pickup 4 1) (sampleOrder Status.delivered (some 4))) = false ∧
    runOp (sampleOrder Status.delivered (some 4)) (OrderOp.pickup 4 1) =
      sampleOrder Status.delivered (some 4) :=
  claim2_terminal_closed.1 (OrderOp.pickup 4 1)
    (sampleOrder Status.delivered (some 4)) rfl (by decide)

/-- C2 counterexample: CONFIRMED is not in the terminal list, yet every
transition operation, invoked by the very actors that own the order,
rejects an order sitting in CONFIRMED, refuting the claim that every
non-terminal status has an accepted outgoing transition. -/
theorem claim2_counterexample :
    Status.confirmed ∉ terminalStatuses ∧
    okB (vendorAcceptOrder 3 1 30 (sampleOrder Status.confirmed (some 4))) = false ∧
    okB (vendorRejectOrder 3 1 (some "r") (sampleOrder Status.confirmed (some 4))) = false ∧
    okB (orderReadyForPickup 3 1 (sampleOrder Status.confirmed (some 4))) = false ∧
    okB (cancelOrder 2 1 none (sampleOrder Status.confirmed (some 4))) = false ∧
    okB (pickupOrder 4 1 (sampleOrder Status.confirmed (some 4))) = false ∧
    okB (startDelivery 4 1 (sampleOrder Status.confirmed (some 4))) = false ∧
    okB (completeDelivery 4 1 (sampleOrder Status.confirmed (some 4))) = false := by
  refine ⟨by decide, rfl, rfl, rfl, rfl, rfl, rfl, rfl⟩

/-- One entry of the separate DeliveryJobRejection collection defined in
deliveryController.js. -/
structure Rejection where
  order : Nat
  deliveryAgent : Nat
  reason : String
deriving DecidableEq, Repr

/-- Courier rejects a delivery job: rejectDeliveryJob in
deliveryController.js.  A missing reason is a 400; the findOne filter
requires status READY_FOR_PICKUP and a null deliveryAgent; on success a
rejection document is created in the separate collection and the order is
not touched at all (no field write, no history entry, no save). -/
def rejectDeliveryJob (agentId orderId : Nat) (reason : Option String)
    (o : Order) (log : List Rejection) : Except ApiErr (Order × List Rejection) :=
  match reason with
  | none => .error ⟨400, "Rejection reason is required"⟩
  | some r =>
    if ¬ (o.id = orderId ∧ o.status = Status.readyForPickup ∧ o.deliveryAgent = none) then
      .error ⟨404, "Order not found or already assigned"⟩
    else
      .ok (o, log ++ [⟨orderId, agentId, r⟩])

/-- C8: a courier rejection leaves the order aggregate entirely unchanged
(status, courier field and history included), appends exactly one record to
the separate rejection log, and afterwards any other courier can still
claim the order. -/
theorem claim8_reject_leaves_order :
    ∀ (agentId orderId : Nat) (r : String) (o : Order) (log : List Rejection)
      (o2 : Order) (log2 : List Rejection),
      rejectDeliveryJob agentId orderId (some r) o log = Except.ok (o2, log2) →
      o2 = o ∧ log2 = log ++ [⟨orderId, agentId, r⟩] ∧
      ∀ c : Nat, okB (deliveryAcceptOrder c orderId o2) = true := by
  intro a oid r o log o2 log2 h
  unfold rejectDeliveryJob at h
  simp only [] at h
  split at h
  · exact absurd h (by simp)
  · next h1 =>
    obtain ⟨hid, hstat, hagent⟩ := not_not.mp h1
    injection h with h3
    obtain ⟨ho, hl⟩ := Prod.mk.injEq .. |>.mp h3
    subst ho
    subst hl
    refine ⟨rfl, rfl, fun c => ?_⟩
    unfold deliveryAcceptOrder okB
    rw [if_neg (not_not.mpr ⟨hid, hstat, hagent⟩)]

/-- Witness for C8 at a concrete unassigned ready order. -/
theorem claim8_reject_leaves_order_witness :
    sampleOrder Status.readyForPickup none = sampleOrder Status.readyForPickup none ∧
    ([] : List Rejection) ++ [⟨1, 7, "too far"⟩] = [⟨1, 7, "too far"⟩] ∧
    okB (deliveryAcceptOrder 9 1 (sampleOrder Status.readyForPickup none)) = true := by
  have h := claim8_reject_leaves_order 7 1 "too far"
    (sampleOrder Status.readyForPickup none) []
    (sampleOrder Status.readyForPickup none) [⟨1, 7, "too far"⟩] rfl
  exact ⟨h.1 ▸ rfl, h.2.1, h.2.2 9⟩

/-- Degrees to radians, deg2rad in src/utils/locationUtils.js. -/
noncomputable def deg2rad (deg : ℝ) : ℝ := deg * (Real.pi / 180)

/-- The haversine intermediate value a computed inside calculateDistance:
sin(dLat/2)*sin(dLat/2) + cos(lat1)*cos(lat2)*sin(dLon/2)*sin(dLon/2). -/
noncomputable def haversineA (lat1 lon1 lat2 lon2 : ℝ) : ℝ :=
  Real.sin (deg2rad (lat2 - lat1) / 2) * Real.sin (deg2rad (lat2 - lat1) / 2) +
  Real.cos (deg2rad lat1) * Real.cos (deg2rad lat2) *
    Real.sin (deg2rad (lon2 - lon1) / 2) * Real.sin (deg2rad (lon2 - lon1) / 2)

/-- Two-argument arctangent with the JavaScript Math.atan2 sign convention
(finite arguments). -/
noncomputable def atan2 (y x : ℝ) : ℝ :=
  if 0 < x then Real.arctan (y / x)
  else if x < 0 then
    (if 0 ≤ y then Real.arctan (y / x) + Real.pi else Real.arctan (y / x) - Real.pi)
  else
    (if 0 < y then Real.pi / 2 else if y < 0 then -(Real.pi / 2) else 0)

/-- Great-circle distance in km, calculateDistance in
src/utils/locationUtils.js: haversine formula with Earth radius 6371 km,
c = 2*atan2(sqrt a, sqrt (1-a)), distance = R*c.  Arguments are latitudes
and longitudes in decimal degrees, in the source argument order
(lat1, lon1, lat2, lon2). -/
noncomputable def calculateDistance (lat1 lon1 lat2 lon2 : ℝ) : ℝ :=
  6371 * (2 * atan2 (Real.sqrt (haversineA lat1 lon1 lat2 lon2))
                    (Real.sqrt (1 - haversineA lat1 lon1 lat2 lon2)))

/-- GeoMath.distanceKm of the spec: both points are (longitude, latitude)
pairs in decimal degrees; every call site passes coordinates[1] as latitude
and coordinates[0] as longitude. -/
noncomputable def distanceKm (A B : ℝ × ℝ) : ℝ :=
  calculateDistance A.2 A.1 B.2 B.1

/-- The haversine intermediate value is symmetric in the two points. -/
lemma haversineA_symm (lat1 lon1 lat2 lon2 : ℝ) :
    haversineA lat1 lon1 lat2 lon2 = haversineA lat2 lon2 lat1 lon1 := by
  unfold haversineA deg2rad
  have hlat : (lat1 - lat2) * (Real.pi / 180) / 2 =
      -((lat2 - lat1) * (Real.pi / 180) / 2) := by ring
  have hlon : (lon1 - lon2) * (Real.pi / 180) / 2 =
      -((lon2 - lon1) * (Real.pi / 180) / 2) := by ring
  rw [hlat, hlon, Real.sin_neg, Real.sin_neg]
  ring

/-- The haversine intermediate value vanishes on equal points. -/
lemma haversineA_self (lat lon : ℝ) : haversineA lat lon lat lon = 0 := by
  unfold haversineA deg2rad
  simp

/-- C7: calculateDistance is symmetric in its two (longitude, latitude)
points and vanishes on equal points; as a pure function of its arguments it
is deterministic by construction. -/
theorem claim7_distance_symm_zero :
    ∀ A B : ℝ × ℝ, distanceKm A B = distanceKm B A ∧ distanceKm A A = 0 := by
  intro A B
  constructor
  · unfold distanceKm calculateDistance
    rw [haversineA_symm]
  · unfold distanceKm calculateDistance
    rw [haversineA_self]
    rw [Real.sqrt_zero]
    unfold atan2
    norm_num

/-- JavaScript Math.round: round half toward positive infinity. -/
def jsRound (q : ℚ) : ℤ := ⌊q + 1 / 2⌋

/-- Delivery fee on the createOrder path (customer controller): base 40;
when both the vendor and the delivery address have coordinates, the fee is
40 + max(0, distance - 2) * 5 rounded with Math.round; otherwise the base
fee stands.  The optional argument is the computed distance, absent when
either location is missing. -/
def createOrderFee (distance : Option ℚ) : ℤ :=
  match distance with
  | none => 40
  | some d => jsRound (40 + max 0 (d - 2) * 5)

/-- Delivery fee on the checkout path, calculateDeliveryFee in the customer
controller: Math.ceil(30 + distanceInKm * 10). -/
def checkoutDeliveryFee (distanceInKm : ℚ) : ℤ :=
  ⌈(30 : ℚ) + distanceInKm * 10⌉

/-- Modelled from the spec wording of C4: the claimed canonical fee,
round(40 + max(0, d - 2) * 5) with round-half-up. -/
def specFeeFormula (d : ℚ) : ℤ := jsRound (40 + max 0 (d - 2) * 5)

/-- C4 (amended): the createOrder path charges exactly the claimed formula
round(40 + max(0, d - 2) * 5), collapsing to the flat base 40 within the
2 km free threshold and when a location is missing; the checkout path
charges a different fee, ceil(30 + 10 * d). -/
theorem claim4_fee_formulas :
    ∀ d : ℚ, 0 ≤ d →
      createOrderFee (some d) = specFeeFormula d ∧
      (d ≤ 2 → createOrderFee (some d) = 40) ∧
      createOrderFee none = 40 ∧
      checkoutDeliveryFee d = ⌈(30 : ℚ) + d * 10⌉ := by
  intro d hd
  refine ⟨rfl, ?_, rfl, rfl⟩
  intro h2
  have hmax : max 0 (d - 2) = 0 := max_eq_left (by linarith)
  unfold createOrderFee jsRound
  simp only [hmax]
  norm_num

/-- Witness for C4 at distance 4 km. -/
theorem claim4_fee_formulas_witness :
    createOrderFee (some 4) = specFeeFormula 4 ∧
    (createOrderFee (some 1) = 40) ∧
    checkoutDeliveryFee 4 = ⌈(30 : ℚ) + 4 * 10⌉ := by
  refine ⟨(claim4_fee_formulas 4 (by norm_num)).1,
    (claim4_fee_formulas 1 (by norm_num)).2.1 (by norm_num),
    (claim4_fee_formulas 4 (by norm_num)).2.2.2⟩

/-- C4 counterexample: at 4 km the checkout path charges 70 while the
claimed canonical formula (and the createOrder path) gives 50, so the two
order-creation paths do not agree on the claimed fee. -/
theorem claim4_counterexample :
    checkoutDeliveryFee 4 = 70 ∧ specFeeFormula 4 = 50 ∧
    createOrderFee (some 4) = 50 ∧ checkoutDeliveryFee 4 ≠ specFeeFormula 4 := by
  refine ⟨?_, ?_, ?_, ?_⟩ <;> norm_num [checkoutDeliveryFee, specFeeFormula, createOrderFee, jsRound]

/-- The distance annotation written onto each result: toFixed(2) followed by
parseFloat in the sort comparator, modeled as rounding to two decimals
(non-negative distances round half up, as toFixed does). -/
def fixed2 (q : ℚ) : ℚ := (jsRound (q * 100) : ℚ) / 100

/-- An order row as read by getNearbyOrders, with the populated vendor
location: none models a missing vendor, a missing location or missing
coordinates; the pair is (longitude, latitude). -/
structure NOrder where
  id : Nat
  status : Status
  deliveryAgent : Option Nat
  vendorLoc : Option (ℚ × ℚ)
deriving DecidableEq, Repr

/-- A result row of getNearbyOrders: the order together with the distance
annotation written into order._doc.distance. -/
structure AnnOrder where
  ord : NOrder
  distance : ℚ
deriving DecidableEq, Repr

/-- Comparator used by the final sort: ascending annotated distance. -/
def annLe (a b : AnnOrder) : Prop := a.distance ≤ b.distance

instance : DecidableRel annLe := fun a b => inferInstanceAs (Decidable (a.distance ≤ b.distance))

instance : IsTotal AnnOrder annLe := ⟨fun a b => le_total a.distance b.distance⟩

instance : IsTrans AnnOrder annLe := ⟨fun _ _ _ hxy hyz => le_trans hxy hyz⟩

/-- Courier nearby-jobs query, getNearbyOrders in deliveryController.js.
The geo distance function is passed explicitly (the source calls
calculateDistance(agentLat, agentLng, vendorLat, vendorLng)); agentLoc is
the courier location stored on the User document, absent when never
reported.  The database query selects READY_FOR_PICKUP orders with a null
deliveryAgent; orders without a usable vendor location are dropped; each
survivor within maxDistance is annotated with the two-decimal distance and
the list is sorted ascending by that annotation (stable sort).  The state
(order list) is returned unchanged: the handler performs no write. -/
def getNearbyOrders (dist : ℚ → ℚ → ℚ → ℚ → ℚ) (agentLoc : Option (ℚ × ℚ))
    (maxDistance : ℚ) (orders : List NOrder) :
    Except ApiErr (List AnnOrder) × List NOrder :=
  match agentLoc with
  | none => (.error ⟨400, "Agent location not available"⟩, orders)
  | some aloc =>
    let ready := orders.filter fun o =>
      decide (o.status = Status.readyForPickup ∧ o.deliveryAgent = none)
    let nearby := ready.filterMap fun o =>
      match o.vendorLoc with
      | some vloc =>
        let d := dist aloc.2 aloc.1 vloc.2 vloc.1
        if d ≤ maxDistance then some ⟨o, fixed2 d⟩ else none
      | none => none
    (.ok (List.insertionSort annLe nearby), orders)

/-- Successful result list of the nearby-jobs query. -/
def nearbyResult (dist : ℚ → ℚ → ℚ → ℚ → ℚ) (aloc : ℚ × ℚ)
    (maxDistance : ℚ) (orders : List NOrder) : List AnnOrder :=
  match (getNearbyOrders dist (some aloc) maxDistance orders).1 with
  | .ok l => l
  | .error _ => []

/-- C5: with no stored courier position the query fails with the 400
location-unavailable response (and not an empty list) without touching any
order; with a position it succeeds, touches no order, and returns exactly
the READY_FOR_PICKUP orders with no courier whose vendor lies within
maxDistance, each annotated with its distance, sorted ascending. -/
theorem claim5_nearby_orders :
    (∀ dist maxD (orders : List NOrder),
      getNearbyOrders dist none maxD orders =
        (Except.error ⟨400, "Agent location not available"⟩, orders)) ∧
    (∀ dist (aloc : ℚ × ℚ) maxD (orders : List NOrder),
      (getNearbyOrders dist (some aloc) maxD orders).2 = orders ∧
      (getNearbyOrders dist (some aloc) maxD orders).1 =
        Except.ok (nearbyResult dist aloc maxD orders) ∧
      List.Sorted annLe (nearbyResult dist aloc maxD orders) ∧
      (∀ a ∈ nearbyResult dist aloc maxD orders,
        a.ord ∈ orders ∧ a.ord.status = Status.readyForPickup ∧
        a.ord.deliveryAgent = none ∧
        ∃ vloc, a.ord.vendorLoc = some vloc ∧
          dist aloc.2 aloc.1 vloc.2 vloc.1 ≤ maxD ∧
          a.distance = fixed2 (dist aloc.2 aloc.1 vloc.2 vloc.1)) ∧
      (∀ o ∈ orders, o.status = Status.readyForPickup → o.deliveryAgent = none →
        ∀ vloc, o.vendorLoc = some vloc → dist aloc.2 aloc.1 vloc.2 vloc.1 ≤ maxD →
          (⟨o, fixed2 (dist aloc.2 aloc.1 vloc.2 vloc.1)⟩ : AnnOrder) ∈
            nearbyResult dist aloc maxD orders)) := by
  constructor
  · intro dist maxD orders
    rfl
  · intro dist aloc maxD orders
    refine ⟨rfl, rfl, List.sorted_insertionSort _ _, ?_, ?_⟩
    · intro a ha
      have hmem : a ∈ (orders.filter fun o =>
          decide (o.status = Status.readyForPickup ∧ o.deliveryAgent = none)).filterMap
            (fun o => match o.vendorLoc with
              | some vloc =>
                if dist aloc.2 aloc.1 vloc.2 vloc.1 ≤ maxD then
                  some ⟨o, fixed2 (dist aloc.2 aloc.1 vloc.2 vloc.1)⟩ else none
              | none => none) :=
        (List.perm_insertionSort annLe _).mem_iff.mp ha
      obtain ⟨o, ho, hmk⟩ := List.mem_filterMap.mp hmem
      have hfil := List.mem_filter.mp ho
      obtain ⟨hready, hagent⟩ := of_decide_eq_true hfil.2
      cases hv : o.vendorLoc with
      | none => rw [hv] at hmk; cases hmk
      | some vloc =>
        rw [hv] at hmk
        simp only [] at hmk
        by_cases hd : dist aloc.2 aloc.1 vloc.2 vloc.1 ≤ maxD
        · rw [if_pos hd] at hmk
          injection hmk with hmk
          subst hmk
          exact ⟨hfil.1, hready, hagent, vloc, hv, hd, rfl⟩
        · rw [if_neg hd] at hmk
          cases hmk
    · intro o ho hready hagent vloc hv hd
      apply (List.perm_insertionSort annLe _).mem_iff.mpr
      apply List.mem_filterMap.mpr
      refine ⟨o, List.mem_filter.mpr ⟨ho, decide_eq_true ⟨hready, hagent⟩⟩, ?_⟩
      rw [hv]
      simp only []
      rw [if_pos hd]

/-- Witness for C5: a courier without a stored position gets the 400
response, and with a position the single in-range ready order is returned. -/
theorem claim5_nearby_orders_witness :
    getNearbyOrders (fun _ _ _ _ => 3) none 5 [⟨1, Status.readyForPickup, none, some (1, 1)⟩] =
      (Except.error ⟨400, "Agent location not available"⟩,
        [⟨1, Status.readyForPickup, none, some (1, 1)⟩]) ∧
    (⟨⟨1, Status.readyForPickup, none, some (1, 1)⟩, fixed2 3⟩ : AnnOrder) ∈
      nearbyResult (fun _ _ _ _ => 3) (0, 0) 5 [⟨1, Status.readyForPickup, none, some (1, 1)⟩] :=
  ⟨claim5_nearby_orders.1 (fun _ _ _ _ => 3) 5 _,
   (claim5_nearby_orders.2 (fun _ _ _ _ => 3) (0, 0) 5
      [⟨1, Status.readyForPickup, none, some (1, 1)⟩]).2.2.2.2
     ⟨1, Status.readyForPickup, none, some (1, 1)⟩ (by simp) rfl rfl (1, 1) rfl (by norm_num)⟩

/-- A vendor user row as read by getNearbyStores: active models the query
filter role VENDOR and status ACTIVE; the location pair is
(longitude, latitude); deliveryRadiusKm is storeDetails.deliveryRadiusKm. -/
structure StoreVendor where
  id : Nat
  active : Bool
  pinCode : Option String
  location : Option (ℚ × ℚ)
  deliveryRadiusKm : Option ℚ
deriving DecidableEq, Repr

/-- A result row of getNearbyStores: vendor plus the annotations the
handler writes onto it. -/
structure AnnVendor where
  vendor : StoreVendor
  distance : ℚ
  isDeliveryAvailable : Bool
deriving DecidableEq, Repr

/-- Comparator of the final sort: ascending annotated distance. -/
def annVLe (a b : AnnVendor) : Prop := a.distance ≤ b.distance

instance : DecidableRel annVLe := fun a b => inferInstanceAs (Decidable (a.distance ≤ b.distance))

instance : IsTotal AnnVendor annVLe := ⟨fun a b => le_total a.distance b.distance⟩

instance : IsTrans AnnVendor annVLe := ⟨fun _ _ _ hxy hyz => le_trans hxy hyz⟩

/-- Customer nearby-stores query, getNearbyStores in the customer
controller.  The database query selects active vendors (optionally matching
the pinCode); vendors with a missing location or a zero coordinate (falsy
in the source check) are skipped; each survivor is annotated with the
two-decimal distance and with isDeliveryAvailable (distance within the
vendor radius, default 5 km) and kept only when within the requested
maxDistance; the result is sorted ascending by distance. -/
def getNearbyStores (dist : ℚ → ℚ → ℚ → ℚ → ℚ) (custCoords : ℚ × ℚ)
    (maxDistance : ℚ) (pinCode : Option String) (vendors : List StoreVendor) :
    List AnnVendor :=
  let queried := vendors.filter fun v =>
    v.active && (match pinCode with
      | none => true
      | some p => decide (v.pinCode = some p))
  let annotated := queried.filterMap fun v =>
    match v.location with
    | some (x, y) =>
      if x = 0 ∨ y = 0 then none
      else
        let d := dist custCoords.2 custCoords.1 y x
        let radius := v.deliveryRadiusKm.getD 5
        if d ≤ maxDistance then some ⟨v, fixed2 d, decide (d ≤ radius)⟩ else none
    | none => none
  List.insertionSort annVLe annotated

/-- C6 (amended): every returned row is an active vendor with a usable
location within the requested maxDistance, annotated with its distance and
with isDeliveryAvailable computed against the vendor radius (default 5 km);
vendors outside their own service radius but within maxDistance stay in the
result (flagged unavailable), while vendors beyond maxDistance are dropped
from the result entirely; the result is sorted ascending by distance. -/
theorem claim6_nearby_stores :
    ∀ (dist : ℚ → ℚ → ℚ → ℚ → ℚ) (cc : ℚ × ℚ) (maxD : ℚ)
      (pin : Option String) (vendors : List StoreVendor),
      List.Sorted annVLe (getNearbyStores dist cc maxD pin vendors) ∧
      (∀ av ∈ getNearbyStores dist cc maxD pin vendors,
        av.vendor ∈ vendors ∧ av.vendor.active = true ∧
        ∃ x y, av.vendor.location = some (x, y) ∧ x ≠ 0 ∧ y ≠ 0 ∧
          dist cc.2 cc.1 y x ≤ maxD ∧
          av.distance = fixed2 (dist cc.2 cc.1 y x) ∧
          av.isDeliveryAvailable =
            decide (dist cc.2 cc.1 y x ≤ av.vendor.deliveryRadiusKm.getD 5)) ∧
      (∀ v ∈ vendors, v.active = true →
        (∀ p, pin = some p → v.pinCode = some p) →
        ∀ x y, v.location = some (x, y) → x ≠ 0 → y ≠ 0 →
          dist cc.2 cc.1 y x ≤ maxD →
          (⟨v, fixed2 (dist cc.2 cc.1 y x),
             decide (dist cc.2 cc.1 y x ≤ v.deliveryRadiusKm.getD 5)⟩ : AnnVendor) ∈
            getNearbyStores dist cc maxD pin vendors) := by
  intro dist cc maxD pin vendors
  refine ⟨List.sorted_insertionSort _ _, ?_, ?_⟩
  · intro av hav
    have hmem := (List.perm_insertionSort annVLe _).mem_iff.mp hav
    obtain ⟨v, hv, hmk⟩ := List.mem_filterMap.mp hmem
    have hfil := List.mem_filter.mp hv
    have hact : v.active = true := by
      have := hfil.2
      cases hq : v.active with
      | false => rw [hq] at this; simp at this
      | true => rfl
    cases hloc : v.location with
    | none => rw [hloc] at hmk; cases hmk
    | some xy =>
      obtain ⟨x, y⟩ := xy
      rw [hloc] at hmk
      simp only [] at hmk
      by_cases hz : x = 0 ∨ y = 0
      · rw [if_pos hz] at hmk; cases hmk
      · rw [if_neg hz] at hmk
        push_neg at hz
        by_cases hd : dist cc.2 cc.1 y x ≤ maxD
        · rw [if_pos hd] at hmk
          injection hmk with hmk
          subst hmk
          exact ⟨hfil.1, hact, x, y, hloc, hz.1, hz.2, hd, rfl, rfl⟩
        · rw [if_neg hd] at hmk; cases hmk
  · intro v hv hact hpin x y hloc hx hy hd
    apply (List.perm_insertionSort annVLe _).mem_iff.mpr
    apply List.mem_filterMap.mpr
    refine ⟨v, List.mem_filter.mpr ⟨hv, ?_⟩, ?_⟩
    · rw [hact]
      cases pin with
      | none => rfl
      | some p => simp [hpin p rfl]
    · rw [hloc]
      simp only []
      rw [if_neg (by rintro (h | h); exact hx h; exact hy h)]
      rw [if_pos hd]

/-- Witness for C6: a single active vendor 3 km away with the default 5 km
radius and a 10 km request window is returned, annotated available. -/
theorem claim6_nearby_stores_witness :
    (⟨⟨1, true, none, some (1, 1), none⟩, fixed2 3, decide ((3 : ℚ) ≤ (5 : ℚ))⟩ : AnnVendor) ∈
      getNearbyStores (fun _ _ _ _ => 3) (0, 0) 10 none [⟨1, true, none, some (1, 1), none⟩] :=
  (claim6_nearby_stores (fun _ _ _ _ => 3) (0, 0) 10 none
      [⟨1, true, none, some (1, 1), none⟩]).2.2
    ⟨1, true, none, some (1, 1), none⟩ (by simp) rfl (fun p hp => by cases hp)
    1 1 rfl (by norm_num) (by norm_num) (by norm_num)

/-- C6 counterexample: an active vendor 10 km away is dropped entirely when
the caller requests maxDistance 5 km, refuting the claim that vendors
beyond the requested maxDistanceKm remain present in the result. -/
theorem claim6_counterexample :
    getNearbyStores (fun _ _ _ _ => 10) (0, 0) 5 none
      [⟨1, true, none, some (1, 1), none⟩] = [] ∧
    (⟨1, true, none, some (1, 1), none⟩ : StoreVendor).active = true ∧
    ¬ ((10 : ℚ) ≤ 5) := by
  refine ⟨?_, rfl, by norm_num⟩
  simp [getNearbyStores, List.insertionSort]

/-- A socket.io room name used by the wiring in index.js: order-(id),
chat-(id), and the per-role channels joined during authenticate. -/
inductive Room where
  | order (id : Nat)
  | chat (id : Nat)
  | roleCustomer (uid : Nat)
  | roleDelivery (uid : Nat)
  | roleVendor (uid : Nat)
deriving DecidableEq, Repr

/-- True for the role channels (customer-, delivery-, vendor- rooms). -/
def isRoleRoom : Room → Bool
  | .roleCustomer _ => true
  | .roleDelivery _ => true
  | .roleVendor _ => true
  | _ => false

/-- A realtime connection: the authenticated identity stored on
socket.user (absent until a successful authenticate event) and the set of
joined rooms. -/
structure Conn where
  user : Option (Nat × String)
  rooms : List Room
deriving DecidableEq, Repr

/-- socket.join: room membership is a set, joining twice is a no-op. -/
def joinRoom (r : Room) (c : Conn) : Conn :=
  if r ∈ c.rooms then c else { c with rooms := c.rooms ++ [r] }

/-- The socket events of index.js that touch authentication or room
membership.  The authenticate payload carries the verified token content
(userId and role); none models a missing or invalid token, on which the
handler returns early leaving the connection unauthenticated. -/
inductive SockEvent where
  | authenticate (token : Option (Nat × String))
  | joinOrderTracking (orderId : Nat)
  | joinSupportChat (chatId : Nat)
deriving DecidableEq, Repr

/-- Event dispatch mirroring io.on connection in index.js: authenticate
stores the identity and auto-joins the role channel for the three known
roles; join-order-tracking and join-support-chat join the requested room
with no authentication check. -/
def handleEvent (c : Conn) (e : SockEvent) : Conn :=
  match e with
  | .authenticate none => c
  | .authenticate (some (uid, role)) =>
    let c1 := { c with user := some (uid, role) }
    if role = "customer" then joinRoom (.roleCustomer uid) c1
    else if role = "delivery" then joinRoom (.roleDelivery uid) c1
    else if role = "vendor" then joinRoom (.roleVendor uid) c1
    else c1
  | .joinOrderTracking oid => joinRoom (.order oid) c
  | .joinSupportChat cid => joinRoom (.chat cid) c

/-- A fresh connection: no identity, no rooms. -/
def initialConn : Conn := ⟨none, []⟩

/-- A connection after a sequence of events. -/
def runEvents (es : List SockEvent) : Conn := es.foldl handleEvent initialConn

/-- Transport disconnect: socket.io destroys the socket and discards all of
its room memberships. -/
def disconnectConn (c : Conn) : Conn := { c with rooms := [] }

/-- Joining a room never changes the stored identity. -/
lemma joinRoom_user (r : Room) (c : Conn) : (joinRoom r c).user = c.user := by
  unfold joinRoom
  split <;> rfl

/-- Membership after a join comes from the old membership or is the joined
room itself. -/
lemma joinRoom_mem {x r : Room} {c : Conn} (h : x ∈ (joinRoom r c).rooms) :
    x ∈ c.rooms ∨ x = r := by
  unfold joinRoom at h
  split at h
  · exact Or.inl h
  · rcases List.mem_append.mp h with hm | hm
    · exact Or.inl hm
    · simp at hm
      exact Or.inr hm

/-- A successful authenticate always leaves a stored identity. -/
lemma handleEvent_auth_user (c : Conn) (uid : Nat) (role : String) :
    (handleEvent c (SockEvent.authenticate (some (uid, role)))).user = some (uid, role) := by
  unfold handleEvent
  simp only []
  split
  · rw [joinRoom_user]
  · split
    · rw [joinRoom_user]
    · split
      · rw [joinRoom_user]
      · rfl

/-- Invariant transported by every event: a connection holding a role
channel has authenticated, and the stored identity is never cleared. -/
lemma handleEvent_role_auth {c : Conn} (e : SockEvent)
    (h : ∀ r ∈ c.rooms, isRoleRoom r = true → c.user.isSome = true) :
    ∀ r ∈ (handleEvent c e).rooms, isRoleRoom r = true →
      (handleEvent c e).user.isSome = true := by
  cases e with
  | authenticate t =>
    cases t with
    | none => exact h
    | some p =>
      obtain ⟨uid, role⟩ := p
      intro r hr hrole
      rw [handleEvent_auth_user]
      rfl
  | joinOrderTracking oid =>
    intro r hr hrole
    replace hr : r ∈ (joinRoom (.order oid) c).rooms := hr
    show (joinRoom (.order oid) c).user.isSome = true
    rw [joinRoom_user]
    rcases joinRoom_mem hr with hm | hm
    · exact h r hm hrole
    · rw [hm] at hrole
      cases hrole
  | joinSupportChat cid =>
    intro r hr hrole
    replace hr : r ∈ (joinRoom (.chat cid) c).rooms := hr
    show (joinRoom (.chat cid) c).user.isSome = true
    rw [joinRoom_user]
    rcases joinRoom_mem hr with hm | hm
    · exact h r hm hrole
    · rw [hm] at hrole
      cases hrole

/-- C9 (amended): role-channel memberships exist only on authenticated
connections (they are granted exclusively inside a successful authenticate
handler, and the identity is never cleared), all memberships are discarded
on transport disconnect, but order-tracking and chat rooms can be joined by
a connection that never authenticated: those join handlers perform no
authentication check. -/
theorem claim9_membership_auth :
    (∀ es : List SockEvent, ∀ r ∈ (runEvents es).rooms,
      isRoleRoom r = true → (runEvents es).user.isSome = true) ∧
    (∀ c : Conn, (disconnectConn c).rooms = []) ∧
    (runEvents [SockEvent.joinOrderTracking 5]).user = none ∧
    Room.order 5 ∈ (runEvents [SockEvent.joinOrderTracking 5]).rooms := by
  refine ⟨?_, fun c => rfl, rfl, by decide⟩
  intro es
  have main : ∀ (l : List SockEvent) (c : Conn),
      (∀ r ∈ c.rooms, isRoleRoom r = true → c.user.isSome = true) →
      ∀ r ∈ (l.foldl handleEvent c).rooms, isRoleRoom r = true →
        (l.foldl handleEvent c).user.isSome = true := by
    intro l
    induction l with
    | nil => intro c h; exact h
    | cons e l ih =>
      intro c h
      exact ih (handleEvent c e) (handleEvent_role_auth e h)
  exact main es initialConn (by intro r hr; cases hr)

/-- Witness for C9: after authenticating as a courier, the role channel is
held and the invariant applies to the resulting connection. -/
theorem claim9_membership_auth_witness :
    (runEvents [SockEvent.authenticate (some (7, "delivery"))]).user.isSome = true :=
  claim9_membership_auth.1 [SockEvent.authenticate (some (7, "delivery"))]
    (Room.roleDelivery 7) (by decide) rfl

/-- C9 counterexample: a connection that never authenticated joins the
order-tracking room, so a topic membership exists outside the
Authenticated state, refuting the claim. -/
theorem claim9_counterexample :
    (runEvents [SockEvent.joinOrderTracking 5]).user = none ∧
    (runEvents [SockEvent.joinOrderTracking 5]).rooms = [Room.order 5] := by
  exact ⟨rfl, by decide⟩

/-- The Redis/socket payload written by updateLocation: agentId, the raw
coordinates array and the optional telemetry fields. -/
structure LocData where
  agentId : Nat
  coordinates : List ℚ
  accuracy : Option ℚ
  speed : Option ℚ
  heading : Option ℚ
deriving DecidableEq, Repr

/-- State touched by the courier location report key paths:
the agent location persisted on the User document, the
delivery_location:(courierId) cache entry, the
order_delivery_location:(orderId) cache entries, and the
delivery-location-updated events emitted to order-(id) rooms. -/
structure TrackState where
  agentDbLoc : Option (List ℚ)
  deliveryLocCache : Option LocData
  orderLocCache : List (Nat × LocData)
  emitted : List (Nat × LocData)
deriving DecidableEq, Repr

/-- The coordinates field of the request body: absent or falsy, present but
not an array, or an array of numbers. -/
inductive CoordsBody where
  | missing
  | notArray
  | arr (cs : List ℚ)
deriving DecidableEq, Repr

/-- Redis SET on the order-scoped key: last writer for a key wins. -/
def setOrderKey (l : List (Nat × LocData)) (k : Nat) (v : LocData) :
    List (Nat × LocData) :=
  (k, v) :: l.filter fun p => decide (p.1 ≠ k)

/-- Courier location report, updateLocation in deliveryController.js (the
version with the range validation).  Validation order follows the source:
missing / non-array / wrong-length coordinates give the 400 coordinates
response; a longitude outside [-180, 180] or latitude outside [-90, 90]
gives the 400 range response; only then are the User document, the courier
cache entry and (when orderId is present) the order cache entry written and
the socket event emitted. -/
def updateLocation (agentId : Nat) (coords : CoordsBody) (orderId : Option Nat)
    (accuracy speed heading : Option ℚ) (s : TrackState) :
    Except ApiErr Unit × TrackState :=
  match coords with
  | .missing => (.error ⟨400, "Valid coordinates are required [longitude, latitude]"⟩, s)
  | .notArray => (.error ⟨400, "Valid coordinates are required [longitude, latitude]"⟩, s)
  | .arr cs =>
    match cs with
    | [longitude, latitude] =>
      if longitude < -180 ∨ longitude > 180 ∨ latitude < -90 ∨ latitude > 90 then
        (.error ⟨400, "Coordinates out of valid range"⟩, s)
      else
        let locationData : LocData := ⟨agentId, [longitude, latitude], accuracy, speed, heading⟩
        let s1 := { s with agentDbLoc := some [longitude, latitude],
                           deliveryLocCache := some locationData }
        match orderId with
        | some oid =>
          (.ok (), { s1 with orderLocCache := setOrderKey s1.orderLocCache oid locationData,
                             emitted := s1.emitted ++ [(oid, locationData)] })
        | none => (.ok (), s1)
    | _ => (.error ⟨400, "Valid coordinates are required [longitude, latitude]"⟩, s)

/-- C10: every malformed or out-of-range coordinates body makes
updateLocation return a 400 validation error with the tracking state
returned exactly as it was: no database location write, no cache write on
either key, and no emitted event. -/
theorem claim10_invalid_location_no_write :
    ∀ (agentId : Nat) (coords : CoordsBody) (orderId : Option Nat)
      (accuracy speed heading : Option ℚ) (s : TrackState),
      (coords = CoordsBody.missing ∨ coords = CoordsBody.notArray ∨
       (∀ cs, coords = CoordsBody.arr cs → cs.length ≠ 2) ∨
       (∃ lng lat, coords = CoordsBody.arr [lng, lat] ∧
          (lng < -180 ∨ lng > 180 ∨ lat < -90 ∨ lat > 90))) →
      okB (updateLocation agentId coords orderId accuracy speed heading s).1 = false ∧
      (updateLocation agentId coords orderId accuracy speed heading s).2 = s := by
  intro a coords oid acc spd hd s hbad
  rcases hbad with h | h | h | h
  · subst h
    exact ⟨rfl, rfl⟩
  · subst h
    exact ⟨rfl, rfl⟩
  · cases coords with
    | missing => exact ⟨rfl, rfl⟩
    | notArray => exact ⟨rfl, rfl⟩
    | arr cs =>
      have hlen : cs.length ≠ 2 := h cs rfl
      match cs, hlen with
      | [], _ => exact ⟨rfl, rfl⟩
      | [x], _ => exact ⟨rfl, rfl⟩
      | x :: y :: z :: t, _ => exact ⟨rfl, rfl⟩
      | [x, y], hlen => exact absurd rfl hlen
  · obtain ⟨lng, lat, hc, hrange⟩ := h
    subst hc
    unfold updateLocation
    simp only []
    rw [if_pos hrange]
    exact ⟨rfl, rfl⟩

/-- Witness for C10 at an out-of-range longitude. -/
theorem claim10_invalid_location_no_write_witness :
    okB (updateLocation 7 (CoordsBody.arr [200, 0]) (some 1) none none none
        ⟨none, none, [], []⟩).1 = false ∧
    (updateLocation 7 (CoordsBody.arr [200, 0]) (some 1) none none none
        ⟨none, none, [], []⟩).2 = ⟨none, none, [], []⟩ :=
  claim10_invalid_location_no_write 7 (CoordsBody.arr [200, 0]) (some 1)
    none none none ⟨none, none, [], []⟩
    (Or.inr (Or.inr (Or.inr ⟨200, 0, rfl, by norm_num⟩)))
